import Mathlib

/-!
Shallow embedding of the rollout orchestration logic in `cmd/rollout/rollout.go`:
namespace enumeration, per-kind workload scanning, name filtering
(`strings.Contains(strings.ToLower(name), rc.podFilter)`), the annotation-based
restart trigger, per-resource error isolation, and aggregation into run metadata.

External effects (the Kubernetes API calls) are modelled by an environment the
run consumes: each namespace carries, per resource kind, either a listing
failure or the list of workloads returned, and each listed workload is paired
with a Boolean saying whether its Update call succeeds.
-/

namespace Rollout

/-- `hasPrefixChars sub s` is Go's internal prefix test on rune sequences:
`sub` is a contiguous prefix of `s`. -/
def hasPrefixChars : List Char → List Char → Bool
  | [], _ => true
  | _ :: _, [] => false
  | a :: as, b :: bs => a == b && hasPrefixChars as bs

/-- `containsChars s sub` embeds Go `strings.Contains(s, sub)`:
does `sub` occur contiguously inside `s`?  The empty `sub` is contained in
every string. -/
def containsChars : List Char → List Char → Bool
  | _, [] => true
  | [], _ :: _ => false
  | a :: as, sub => hasPrefixChars sub (a :: as) || containsChars as sub

/-- Go `strings.Contains` lifted to `String`. -/
def goContains (s sub : String) : Bool :=
  containsChars s.toList sub.toList

/-- Go `strings.ToLower`, modelled as the per-character lowercase map over
the string's characters. -/
def goToLower (s : String) : String :=
  String.mk (s.data.map Char.toLower)

/-- The match test the code performs on every listed workload
(rollout.go lines 148, 184, 220):
`strings.Contains(strings.ToLower(name), rc.podFilter)` — the name is
lowercased, the filter is used verbatim. -/
def matchesFilter (podFilter name : String) : Bool :=
  goContains (goToLower name) podFilter

/-- Modelled from the spec (the refinement side of the filter claim, not from
the code): a case-insensitive substring match, `contains(lowercase(name),
lowercase(filter))`. -/
def specCaseInsensitiveMatch (podFilter name : String) : Bool :=
  goContains (goToLower name) (goToLower podFilter)

/-- The fixed pod-template annotation key the code writes
(`kubectl.kubernetes.io/restartedAt`). -/
def restartedAtKey : String := "kubectl.kubernetes.io/restartedAt"

/-- Go map assignment `m[k] = v` on an association-list view of the
annotation map: replace the binding of `k` if present, otherwise append it. -/
def setAnn : List (String × String) → String → String → List (String × String)
  | [], k, v => [(k, v)]
  | (k0, v0) :: rest, k, v =>
      if k0 == k then (k, v) :: rest else (k0, v0) :: setAnn rest k v

/-- Go map lookup `m[k]` on the association-list view. -/
def getAnn : List (String × String) → String → Option String
  | [], _ => none
  | (k0, v0) :: rest, k => if k0 == k then some v0 else getAnn rest k

/-- A workload descriptor as the code sees it: a name, the pod-template
annotation map (`nil` modelled as `none`), and `rest` standing for every
other field of the Kubernetes object, which the code never touches. -/
structure Workload (α : Type) where
  name : String
  annotations : Option (List (String × String))
  rest : α

/-- The mutation performed on a matching workload before the Update call
(rollout.go lines 155-158): if the pod-template annotation map is nil,
allocate an empty one; then set `restartedAtKey` to the current timestamp. -/
def annotate (now : String) (w : Workload α) : Workload α :=
  { w with annotations := some (setAnn (w.annotations.getD []) restartedAtKey now) }

/-- The count accumulated by a per-kind restart loop over a successful
listing: each listed workload comes paired with the outcome of its Update
call (`true` = success); a workload contributes 1 exactly when its name
matches the filter and its Update call succeeds. -/
def countRestarted (podFilter : String) : List (Workload α × Bool) → Nat
  | [] => 0
  | (w, ok) :: rest =>
      (if matchesFilter podFilter w.name then (if ok then 1 else 0) else 0)
        + countRestarted podFilter rest

/-- The sequence of full workload objects submitted to Update by a per-kind
restart loop, in listing order: exactly the matching workloads, each with the
annotation mutation applied (submission happens whether or not the Update
call then fails). -/
def submittedUpdates (podFilter now : String) :
    List (Workload α × Bool) → List (Workload α)
  | [] => []
  | (w, _) :: rest =>
      (if matchesFilter podFilter w.name then [annotate now w] else [])
        ++ submittedUpdates podFilter now rest

/-- One per-kind restart procedure (`restartDeployments`, `restartStatefulSets`,
`restartDaemonSets` all have this shape): a listing failure is returned
unchanged as `(0, err)`; otherwise the loop runs and `(count, nil)` is
returned. -/
def restartKind (podFilter : String)
    (listing : Except E (List (Workload α × Bool))) : Except E Nat :=
  match listing with
  | .error e => .error e
  | .ok items => .ok (countRestarted podFilter items)

/-- The three workload kinds the run scans. -/
inductive Kind where
  | deployments
  | statefulSets
  | daemonSets
deriving DecidableEq, Repr

/-- An entry of the run-level error list: Go's
`fmt.Errorf("<kind> in <ns>: %w", err)` tags the wrapped listing error with
the resource kind and the namespace it came from. -/
structure TaggedError (E : Type) where
  kind : Kind
  nsName : String
  err : E
deriving DecidableEq, Repr

/-- The environment one namespace presents to the run: its name and, per
resource kind, either a listing error or the listed workloads each paired
with its Update outcome. -/
structure NamespaceEnv (α E : Type) where
  name : String
  deployments : Except E (List (Workload α × Bool))
  statefulSets : Except E (List (Workload α × Bool))
  daemonSets : Except E (List (Workload α × Bool))

/-- The whole cluster environment: the namespace listing either fails or
returns the namespaces in listing order. -/
structure Cluster (α E : Type) where
  namespaces : Except E (List (NamespaceEnv α E))

/-- `rolloutMetadata`: the per-run counters and the accumulated error list
(the start timestamp only feeds the derived duration and is omitted). -/
structure RolloutMetadata (E : Type) where
  deploymentsRestarted : Nat
  statefulSetsRestarted : Nat
  daemonSetsRestarted : Nat
  namespacesProcessed : Nat
  errors : List (TaggedError E)
deriving DecidableEq, Repr

/-- `totalRestarted`: the derived total, computed as the sum of the three
per-kind counters (rollout.go lines 132-134). -/
def totalRestarted (rm : RolloutMetadata E) : Nat :=
  rm.deploymentsRestarted + rm.statefulSetsRestarted + rm.daemonSetsRestarted

/-- The metadata `Run` initializes before listing namespaces: all counters
zero, empty error list. -/
def initMetadata : RolloutMetadata E :=
  { deploymentsRestarted := 0
    statefulSetsRestarted := 0
    daemonSetsRestarted := 0
    namespacesProcessed := 0
    errors := [] }

/-- One iteration of `Run`'s namespace loop (rollout.go lines 52-91):
increment `namespacesProcessed`, then for Deployments, StatefulSets and
DaemonSets in that order either append one tagged error (listing failure,
counter untouched) or add the returned count to that kind's counter. -/
def processNamespace (podFilter : String) (md : RolloutMetadata E)
    (ns : NamespaceEnv α E) : RolloutMetadata E :=
  let md0 := { md with namespacesProcessed := md.namespacesProcessed + 1 }
  let md1 := match restartKind podFilter ns.deployments with
    | .error e =>
        { md0 with errors := md0.errors ++ [TaggedError.mk Kind.deployments ns.name e] }
    | .ok n => { md0 with deploymentsRestarted := md0.deploymentsRestarted + n }
  let md2 := match restartKind podFilter ns.statefulSets with
    | .error e =>
        { md1 with errors := md1.errors ++ [TaggedError.mk Kind.statefulSets ns.name e] }
    | .ok n => { md1 with statefulSetsRestarted := md1.statefulSetsRestarted + n }
  match restartKind podFilter ns.daemonSets with
  | .error e =>
      { md2 with errors := md2.errors ++ [TaggedError.mk Kind.daemonSets ns.name e] }
  | .ok n => { md2 with daemonSetsRestarted := md2.daemonSetsRestarted + n }

/-- The error `Run` returns when the namespace listing fails:
`fmt.Errorf("failed to list namespaces: %w", err)`. -/
inductive RunError (E : Type) where
  | failedToListNamespaces : E → RunError E
deriving DecidableEq, Repr

/-- The observable outcome of one `Run` call: the metadata as it stands when
`Run` returns, the returned error, and whether the final summary line was
logged. -/
structure RunResult (α E : Type) where
  metadata : RolloutMetadata E
  returnError : Option (RunError E)
  summaryLogged : Bool

/-- `Run` (rollout.go lines 40-104): initialize fresh metadata; list
namespaces, returning the wrapped error (no summary, no restarts) on failure;
otherwise fold the namespace loop over the listing and return nil after
logging the summary. -/
def run (podFilter : String) (c : Cluster α E) : RunResult α E :=
  match c.namespaces with
  | .error e => ⟨initMetadata, some (RunError.failedToListNamespaces e), false⟩
  | .ok nss => ⟨nss.foldl (processNamespace podFilter) initMetadata, none, true⟩

/-- All workload objects submitted to Update over a whole run, in order:
empty when the namespace listing fails; otherwise, per namespace, the
submissions of the three kind loops (a kind whose listing failed submits
nothing). -/
def nsSubmitted (podFilter now : String) (ns : NamespaceEnv α E) :
    List (Workload α) :=
  (match ns.deployments with
    | .error _ => []
    | .ok items => submittedUpdates podFilter now items)
  ++ (match ns.statefulSets with
    | .error _ => []
    | .ok items => submittedUpdates podFilter now items)
  ++ (match ns.daemonSets with
    | .error _ => []
    | .ok items => submittedUpdates podFilter now items)

/-- The submissions of the whole run, concatenated in namespace order. -/
def runSubmitted (podFilter now : String) (c : Cluster α E) :
    List (Workload α) :=
  match c.namespaces with
  | .error _ => []
  | .ok nss => nss.foldr (fun ns acc => nsSubmitted podFilter now ns ++ acc) []

/-! ### Helper functions and lemmas -/

/-- The contribution of one kind's listing to that kind's counter: zero on a
listing failure, the loop count otherwise. -/
def kindCount (podFilter : String)
    (listing : Except E (List (Workload α × Bool))) : Nat :=
  match listing with
  | .error _ => 0
  | .ok items => countRestarted podFilter items

/-- The contribution of one kind's listing to the run-level error list:
one tagged entry on a listing failure, nothing otherwise. -/
def kindErrors (k : Kind) (n : String)
    (listing : Except E (List (Workload α × Bool))) : List (TaggedError E) :=
  match listing with
  | .error e => [TaggedError.mk k n e]
  | .ok _ => []

theorem kindErrors_length_le (k : Kind) (n : String)
    (listing : Except E (List (Workload α × Bool))) :
    (kindErrors k n listing).length ≤ 1 := by
  cases listing <;> simp [kindErrors]

theorem kindErrors_mem_kind (k : Kind) (n : String)
    (listing : Except E (List (Workload α × Bool))) :
    ∀ te ∈ kindErrors k n listing, te.kind = k ∧ te.nsName = n := by
  cases listing <;> simp [kindErrors]

/-- One namespace iteration, characterized field by field. -/
theorem processNamespace_eq (podFilter : String) (md : RolloutMetadata E)
    (ns : NamespaceEnv α E) :
    processNamespace podFilter md ns =
      { deploymentsRestarted :=
          md.deploymentsRestarted + kindCount podFilter ns.deployments
        statefulSetsRestarted :=
          md.statefulSetsRestarted + kindCount podFilter ns.statefulSets
        daemonSetsRestarted :=
          md.daemonSetsRestarted + kindCount podFilter ns.daemonSets
        namespacesProcessed := md.namespacesProcessed + 1
        errors := md.errors
          ++ (kindErrors Kind.deployments ns.name ns.deployments
            ++ kindErrors Kind.statefulSets ns.name ns.statefulSets
            ++ kindErrors Kind.daemonSets ns.name ns.daemonSets) } := by
  obtain ⟨n, d, s, ds⟩ := ns
  cases d <;> cases s <;> cases ds <;>
    simp [processNamespace, restartKind, kindCount, kindErrors]

theorem containsChars_nil (l : List Char) : containsChars l [] = true := by
  cases l <;> simp [containsChars]

theorem matchesFilter_empty (name : String) : matchesFilter "" name = true :=
  containsChars_nil _

theorem countRestarted_append (podFilter : String)
    (a b : List (Workload α × Bool)) :
    countRestarted podFilter (a ++ b) =
      countRestarted podFilter a + countRestarted podFilter b := by
  induction a with
  | nil => simp [countRestarted]
  | cons x rest ih =>
      obtain ⟨w, ok⟩ := x
      simp [countRestarted, ih, Nat.add_assoc]

theorem countRestarted_le_length (podFilter : String)
    (items : List (Workload α × Bool)) :
    countRestarted podFilter items ≤ items.length := by
  induction items with
  | nil => simp [countRestarted]
  | cons x rest ih =>
      obtain ⟨w, ok⟩ := x
      simp only [countRestarted, List.length_cons]
      split <;> [skip; omega]
      split <;> omega

theorem submittedUpdates_append (podFilter now : String)
    (a b : List (Workload α × Bool)) :
    submittedUpdates podFilter now (a ++ b) =
      submittedUpdates podFilter now a ++ submittedUpdates podFilter now b := by
  induction a with
  | nil => simp [submittedUpdates]
  | cons x rest ih =>
      obtain ⟨w, ok⟩ := x
      simp [submittedUpdates, ih]

theorem submittedUpdates_filter_map (podFilter now : String)
    (items : List (Workload α × Bool)) :
    submittedUpdates podFilter now items =
      ((items.map Prod.fst).filter
        (fun w => matchesFilter podFilter w.name)).map (annotate now) := by
  induction items with
  | nil => rfl
  | cons x rest ih =>
      obtain ⟨w, ok⟩ := x
      by_cases h : matchesFilter podFilter w.name <;>
        simp [submittedUpdates, List.filter, h, ih]

theorem getAnn_setAnn (m : List (String × String)) (k v k1 : String) :
    getAnn (setAnn m k v) k1 =
      if k1 = k then some v else getAnn m k1 := by
  induction m with
  | nil =>
      by_cases h : k1 = k
      · subst h; simp [setAnn, getAnn]
      · have h2 : ¬k = k1 := fun hh => h hh.symm
        simp [setAnn, getAnn, h, h2]
  | cons p rest ih =>
      obtain ⟨k0, v0⟩ := p
      by_cases h0 : k0 = k
      · subst h0
        by_cases h1 : k0 = k1
        · subst h1; simp [setAnn, getAnn]
        · have h1' : ¬k1 = k0 := fun hh => h1 hh.symm
          simp [setAnn, getAnn, h1, h1']
      · by_cases h1 : k0 = k1
        · subst h1
          have h0' : ¬k0 = k := h0
          simp [setAnn, getAnn, h0']
        · simp [setAnn, getAnn, h0, h1, ih]

theorem foldl_errors_bound (podFilter : String) :
    ∀ (nss : List (NamespaceEnv α E)) (md : RolloutMetadata E),
      md.errors.length ≤ 3 * md.namespacesProcessed →
      (nss.foldl (processNamespace podFilter) md).errors.length ≤
        3 * (nss.foldl (processNamespace podFilter) md).namespacesProcessed := by
  intro nss
  induction nss with
  | nil => intro md h; simpa using h
  | cons ns rest ih =>
      intro md h
      simp only [List.foldl_cons]
      apply ih
      rw [processNamespace_eq]
      have h1 := kindErrors_length_le Kind.deployments ns.name ns.deployments
      have h2 := kindErrors_length_le Kind.statefulSets ns.name ns.statefulSets
      have h3 := kindErrors_length_le Kind.daemonSets ns.name ns.daemonSets
      simp only [List.length_append]
      omega

/-! ### Concrete environments used by the witnesses -/

/-- A cluster whose namespace listing fails. -/
def cFail : Cluster Unit String := Cluster.mk (Except.error "boom")

/-- A workload whose name contains the filter "database". -/
def wDb : Workload Unit := Workload.mk "database-primary" none ()

/-- A second matching workload. -/
def wDb2 : Workload Unit := Workload.mk "database-replica" none ()

/-- A namespace whose Deployments listing fails, whose StatefulSets listing
succeeds with one workload whose Update succeeds and one whose Update fails,
and which has no DaemonSets. -/
def nsMixed : NamespaceEnv Unit String :=
  NamespaceEnv.mk "prod" (Except.error "forbidden")
    (Except.ok [(wDb, true), (wDb2, false)]) (Except.ok [])

/-- A cluster whose namespace listing succeeds and contains `nsMixed`. -/
def cMixed : Cluster Unit String := Cluster.mk (Except.ok [nsMixed])

/-! ### Claim theorems -/

/-- C1: refuted on the code. The code computes
`strings.Contains(strings.ToLower(name), rc.podFilter)`, lowercasing the
workload name but using the filter verbatim (the same expression in all three
per-kind procedures), so the claimed selection test
`contains(lowercase(N), lowercase(F))` fails for any filter containing an
uppercase letter: with filter "DB" the workload "DB-primary" is not selected
and contributes 0 to the restart count although the case-insensitive test
selects it; even a filter equal verbatim to the workload's own name fails to
match. -/
theorem filter_match_not_case_insensitive :
    matchesFilter "DB" "DB-primary" = false ∧
    specCaseInsensitiveMatch "DB" "DB-primary" = true ∧
    matchesFilter "DB-primary" "DB-primary" = false ∧
    countRestarted "DB" [(Workload.mk "DB-primary" none (), true)] = 0 := by
  decide

/-- C2: when the namespace listing fails, `Run` returns exactly the wrapped
"failed to list namespaces" error, logs no summary, submits no updates, and
the metadata keeps every counter at zero and the error list empty; and this
is the only error condition — whenever the namespace listing succeeds,
`Run` returns nil. -/
theorem run_namespace_list_failure_fatal {α E : Type} (podFilter now : String)
    (c : Cluster α E) (e : E) (h : c.namespaces = Except.error e) :
    run podFilter c =
      RunResult.mk initMetadata (some (RunError.failedToListNamespaces e)) false ∧
    (run podFilter c).metadata.deploymentsRestarted = 0 ∧
    (run podFilter c).metadata.statefulSetsRestarted = 0 ∧
    (run podFilter c).metadata.daemonSetsRestarted = 0 ∧
    (run podFilter c).metadata.namespacesProcessed = 0 ∧
    (run podFilter c).metadata.errors = [] ∧
    (run podFilter c).summaryLogged = false ∧
    runSubmitted podFilter now c = [] ∧
    (∀ (c2 : Cluster α E) (nss : List (NamespaceEnv α E)),
      c2.namespaces = Except.ok nss → (run podFilter c2).returnError = none) := by
  have hr : run podFilter c =
      RunResult.mk initMetadata (some (RunError.failedToListNamespaces e)) false := by
    simp [run, h]
  refine ⟨hr, ?_, ?_, ?_, ?_, ?_, ?_, ?_, ?_⟩
  · simp [hr, initMetadata]
  · simp [hr, initMetadata]
  · simp [hr, initMetadata]
  · simp [hr, initMetadata]
  · simp [hr, initMetadata]
  · simp [hr]
  · simp [runSubmitted, h]
  · intro c2 nss h2
    simp [run, h2]

theorem run_namespace_list_failure_fatal_witness :
    cFail.namespaces = Except.error "boom" ∧
    run "database" cFail =
      RunResult.mk initMetadata (some (RunError.failedToListNamespaces "boom")) false :=
  ⟨rfl, (run_namespace_list_failure_fatal "database" "2026-10-11T00:00:00Z"
    cFail "boom" rfl).1⟩

/-- C3: whenever the namespace listing succeeds, `Run` returns nil, no matter
how many per-kind listing failures or per-item update failures the namespaces
contain; the summary is logged and partial failures are observable only
through the metadata the run accumulated. -/
theorem run_returns_nil_despite_partial_failures {α E : Type}
    (podFilter : String) (c : Cluster α E) (nss : List (NamespaceEnv α E))
    (h : c.namespaces = Except.ok nss) :
    (run podFilter c).returnError = none ∧
    (run podFilter c).summaryLogged = true ∧
    (run podFilter c).metadata =
      nss.foldl (processNamespace podFilter) initMetadata := by
  simp [run, h]

theorem run_returns_nil_despite_partial_failures_witness :
    cMixed.namespaces = Except.ok [nsMixed] ∧
    (run "database" cMixed).returnError = none :=
  ⟨rfl, (run_returns_nil_despite_partial_failures "database" cMixed [nsMixed]
    rfl).1⟩

/-- C4: one namespace iteration always counts the namespace as processed and,
for each of the three kinds: a successful listing adds exactly that loop's
count to the kind's counter, while a failed listing leaves the kind's counter
unchanged and appends exactly one error, tagged with that namespace and kind,
to the run-level error list (the rest of the delta carries no error of that
kind); the fold then continues with the remaining namespaces. -/
theorem kind_listing_failure_isolated {α E : Type} (podFilter : String)
    (md : RolloutMetadata E) (ns : NamespaceEnv α E) :
    (processNamespace podFilter md ns).namespacesProcessed =
      md.namespacesProcessed + 1 ∧
    (∀ items, ns.deployments = Except.ok items →
      (processNamespace podFilter md ns).deploymentsRestarted =
        md.deploymentsRestarted + countRestarted podFilter items) ∧
    (∀ items, ns.statefulSets = Except.ok items →
      (processNamespace podFilter md ns).statefulSetsRestarted =
        md.statefulSetsRestarted + countRestarted podFilter items) ∧
    (∀ items, ns.daemonSets = Except.ok items →
      (processNamespace podFilter md ns).daemonSetsRestarted =
        md.daemonSetsRestarted + countRestarted podFilter items) ∧
    (∀ e, ns.deployments = Except.error e →
      (processNamespace podFilter md ns).deploymentsRestarted =
        md.deploymentsRestarted ∧
      ∃ l1 l2, (processNamespace podFilter md ns).errors =
          md.errors ++ (l1 ++ TaggedError.mk Kind.deployments ns.name e :: l2) ∧
        (∀ te ∈ l1, te.kind ≠ Kind.deployments) ∧
        (∀ te ∈ l2, te.kind ≠ Kind.deployments)) ∧
    (∀ e, ns.statefulSets = Except.error e →
      (processNamespace podFilter md ns).statefulSetsRestarted =
        md.statefulSetsRestarted ∧
      ∃ l1 l2, (processNamespace podFilter md ns).errors =
          md.errors ++ (l1 ++ TaggedError.mk Kind.statefulSets ns.name e :: l2) ∧
        (∀ te ∈ l1, te.kind ≠ Kind.statefulSets) ∧
        (∀ te ∈ l2, te.kind ≠ Kind.statefulSets)) ∧
    (∀ e, ns.daemonSets = Except.error e →
      (processNamespace podFilter md ns).daemonSetsRestarted =
        md.daemonSetsRestarted ∧
      ∃ l1 l2, (processNamespace podFilter md ns).errors =
          md.errors ++ (l1 ++ TaggedError.mk Kind.daemonSets ns.name e :: l2) ∧
        (∀ te ∈ l1, te.kind ≠ Kind.daemonSets) ∧
        (∀ te ∈ l2, te.kind ≠ Kind.daemonSets)) ∧
    (∀ (nss : List (NamespaceEnv α E)) (md0 : RolloutMetadata E),
      List.foldl (processNamespace podFilter) md0 (ns :: nss) =
        List.foldl (processNamespace podFilter)
          (processNamespace podFilter md0 ns) nss) := by
  have hmem : ∀ (k k1 : Kind) (n : String)
      (l : Except E (List (Workload α × Bool))),
      k ≠ k1 → ∀ te ∈ kindErrors k n l, te.kind ≠ k1 := by
    intro k k1 n l hk te hte
    rw [(kindErrors_mem_kind k n l te hte).1]
    exact hk
  refine ⟨?_, ?_, ?_, ?_, ?_, ?_, ?_, ?_⟩
  · rw [processNamespace_eq]
  · intro items hi
    rw [processNamespace_eq]; simp [kindCount, hi]
  · intro items hi
    rw [processNamespace_eq]; simp [kindCount, hi]
  · intro items hi
    rw [processNamespace_eq]; simp [kindCount, hi]
  · intro e h
    refine ⟨by rw [processNamespace_eq]; simp [kindCount, h],
      [], kindErrors Kind.statefulSets ns.name ns.statefulSets
        ++ kindErrors Kind.daemonSets ns.name ns.daemonSets,
      by rw [processNamespace_eq]; simp [kindErrors, h], by simp, ?_⟩
    intro te hte
    rcases List.mem_append.mp hte with h1 | h1
    · exact hmem _ _ _ _ (by simp) te h1
    · exact hmem _ _ _ _ (by simp) te h1
  · intro e h
    refine ⟨by rw [processNamespace_eq]; simp [kindCount, h],
      kindErrors Kind.deployments ns.name ns.deployments,
      kindErrors Kind.daemonSets ns.name ns.daemonSets,
      by rw [processNamespace_eq]; simp [kindErrors, h],
      hmem _ _ _ _ (by simp), hmem _ _ _ _ (by simp)⟩
  · intro e h
    refine ⟨by rw [processNamespace_eq]; simp [kindCount, h],
      kindErrors Kind.deployments ns.name ns.deployments
        ++ kindErrors Kind.statefulSets ns.name ns.statefulSets,
      [],
      by rw [processNamespace_eq]; simp [kindErrors, h], ?_, by simp⟩
    intro te hte
    rcases List.mem_append.mp hte with h1 | h1
    · exact hmem _ _ _ _ (by simp) te h1
    · exact hmem _ _ _ _ (by simp) te h1
  · intro nss md0
    simp [List.foldl_cons]

theorem kind_listing_failure_isolated_witness :
    nsMixed.deployments = Except.error "forbidden" ∧
    (processNamespace "database" initMetadata nsMixed).deploymentsRestarted =
      (initMetadata : RolloutMetadata String).deploymentsRestarted :=
  ⟨rfl,
    ((kind_listing_failure_isolated "database" initMetadata
      nsMixed).2.2.2.2.1 "forbidden" rfl).1⟩

/-- C5: a failed Update of one matching workload contributes nothing to the
count, the loop still submits and counts every subsequent matching workload,
the per-kind procedure still returns nil, and a namespace whose three
listings all succeed adds nothing to the run-level error list no matter which
Update calls fail. -/
theorem update_failure_swallowed {α E : Type} (podFilter now : String)
    (w : Workload α) (pre post : List (Workload α × Bool))
    (hm : matchesFilter podFilter w.name = true) :
    countRestarted podFilter (pre ++ (w, false) :: post) =
      countRestarted podFilter pre + countRestarted podFilter post ∧
    restartKind podFilter
        (Except.ok (pre ++ (w, false) :: post) :
          Except E (List (Workload α × Bool))) =
      Except.ok (countRestarted podFilter pre + countRestarted podFilter post) ∧
    submittedUpdates podFilter now (pre ++ (w, false) :: post) =
      submittedUpdates podFilter now pre ++ annotate now w ::
        submittedUpdates podFilter now post ∧
    (∀ (md : RolloutMetadata E) (ns : NamespaceEnv α E)
        (ds items2 items3 : List (Workload α × Bool)),
      ns.deployments = Except.ok ds → ns.statefulSets = Except.ok items2 →
      ns.daemonSets = Except.ok items3 →
      (processNamespace podFilter md ns).errors = md.errors) := by
  have hc : countRestarted podFilter (pre ++ (w, false) :: post) =
      countRestarted podFilter pre + countRestarted podFilter post := by
    simp [countRestarted_append, countRestarted, hm]
  refine ⟨hc, ?_, ?_, ?_⟩
  · simp [restartKind, hc]
  · simp [submittedUpdates_append, submittedUpdates, hm]
  · intro md ns ds items2 items3 h1 h2 h3
    rw [processNamespace_eq]
    simp [kindErrors, h1, h2, h3]

theorem update_failure_swallowed_witness :
    matchesFilter "database" wDb.name = true ∧
    countRestarted "database" ([] ++ (wDb, false) :: [(wDb2, true)]) =
      countRestarted "database" ([] : List (Workload Unit × Bool)) +
        countRestarted "database" [(wDb2, true)] :=
  ⟨by decide,
    (update_failure_swallowed (E := String) "database" "2026-10-11T00:00:00Z"
      wDb [] [(wDb2, true)] (by decide)).1⟩

/-- C6: the empty filter matches every workload name, so with filter "" every
listed workload of a kind is selected and submitted for restart. -/
theorem empty_filter_matches_all {α : Type} (now : String) :
    (∀ name : String, matchesFilter "" name = true) ∧
    (∀ items : List (Workload α × Bool),
      (submittedUpdates "" now items).length = items.length) := by
  refine ⟨matchesFilter_empty, ?_⟩
  intro items
  induction items with
  | nil => rfl
  | cons x rest ih =>
      obtain ⟨w, ok⟩ := x
      simp [submittedUpdates, matchesFilter_empty, ih]

/-- C7: the total-restarted value is derived as exactly the sum of the three
per-kind counters, for every metadata state (hence every reachable one),
including the freshly initialized all-zero state and the state any run
returns. -/
theorem total_restarted_is_sum {α E : Type} :
    (∀ rm : RolloutMetadata E, totalRestarted rm =
      rm.deploymentsRestarted + rm.statefulSetsRestarted +
        rm.daemonSetsRestarted) ∧
    totalRestarted (initMetadata : RolloutMetadata E) = 0 ∧
    (∀ (podFilter : String) (c : Cluster α E),
      totalRestarted (run podFilter c).metadata =
        (run podFilter c).metadata.deploymentsRestarted +
        (run podFilter c).metadata.statefulSetsRestarted +
        (run podFilter c).metadata.daemonSetsRestarted) :=
  ⟨fun _ => rfl, rfl, fun _ _ => rfl⟩

/-- C8: the mutation applied to a matching workload before its Update call
preserves the name and every other field, makes the annotation map non-nil,
sets exactly the fixed restartedAt key to the timestamp while every other
annotation key is unchanged, and the per-kind loop submits precisely the
annotated versions of the matching workloads. -/
theorem restart_mutation_frame {α : Type} (now : String) (w : Workload α) :
    (annotate now w).name = w.name ∧
    (annotate now w).rest = w.rest ∧
    (annotate now w).annotations.isSome = true ∧
    (∀ k : String, getAnn ((annotate now w).annotations.getD []) k =
      if k = restartedAtKey then some now
      else getAnn (w.annotations.getD []) k) ∧
    (∀ (podFilter : String) (items : List (Workload α × Bool)),
      submittedUpdates podFilter now items =
        ((items.map Prod.fst).filter
          (fun x => matchesFilter podFilter x.name)).map (annotate now)) := by
  refine ⟨rfl, rfl, rfl, ?_, fun podFilter items =>
    submittedUpdates_filter_map podFilter now items⟩
  intro k
  simp [annotate, getAnn_setAnn]

/-- C9: at every point of a run — the metadata after any list of processed
namespaces, starting from the fresh state — the error list holds at most
three entries per processed namespace. -/
theorem error_list_bounded_by_namespaces {α E : Type} (podFilter : String)
    (nss : List (NamespaceEnv α E)) :
    (nss.foldl (processNamespace podFilter) initMetadata).errors.length ≤
      3 * (nss.foldl (processNamespace podFilter)
        initMetadata).namespacesProcessed ∧
    (run podFilter (Cluster.mk (Except.ok nss))).metadata.errors.length ≤
      3 * (run podFilter
        (Cluster.mk (Except.ok nss))).metadata.namespacesProcessed := by
  have h := foldl_errors_bound podFilter nss initMetadata
    (by simp [initMetadata])
  exact ⟨h, by simpa [run] using h⟩

/-- C10: a per-kind procedure whose listing succeeds returns nil together
with a count between 0 and the number of listed workloads; an empty listing
yields count 0. -/
theorem restart_count_bounded_by_listing {α E : Type} (podFilter : String)
    (items : List (Workload α × Bool)) :
    restartKind podFilter
        (Except.ok items : Except E (List (Workload α × Bool))) =
      Except.ok (countRestarted podFilter items) ∧
    countRestarted podFilter items ≤ items.length ∧
    countRestarted podFilter ([] : List (Workload α × Bool)) = 0 :=
  ⟨rfl, countRestarted_le_length podFilter items, rfl⟩

end Rollout
